import Mathlib

/-!
Verification of the PZEM-004T v3 protocol core (package `pzem`, file
`src/pzem/pzem.go`) against its natural-language specification.

Shallow embedding conventions:
* Go `uint8` / `uint16` values are `Nat` with explicit `% 256` / `% 65536`
  where the source truncates; buffers (`[]uint8`) are `List Nat` whose
  entries are kept below 256 at the points where the source's types
  guarantee it.
* Go `float32` measurement fields are modelled as exact rationals `ℚ`:
  the claims under study are about which bytes are assembled and which
  divisor is applied, not about IEEE rounding.
* The serial port is modelled as a pure oracle (`Port`): the outcome of
  the single `Write` and the single `Read` an operation performs.
* Go `error` results are `Option GoErr` (`none` = `nil`); each
  `errors.New` site in the source has its own constructor.
* `time.Time` is milliseconds as `Nat`; the two `time.Now()` calls inside
  `updateValues` are the two explicit parameters `now` (staleness check)
  and `now2` (timestamp written after a successful refresh).
-/

/-- One distinct error value per `errors.New` / `errors.Errorf` site of
`pzem.go`, plus `ioErr` for errors produced by the serial transport
itself. -/
inductive GoErr where
  | portMustBeSet
  | invalidAddress
  | sendShort (want got : Nat)
  | echoMismatch
  | shortRead (want got : Nat)
  | badCRC
  | illegalCommand
  | illegalAddress
  | illegalData
  | slaveError
  | unknownError
  | ioErr (msg : String)
deriving DecidableEq

/-- Decidable equality on `Except`, so that concrete protocol outcomes
can be checked by evaluation. -/
instance {ε α : Type} [DecidableEq ε] [DecidableEq α] : DecidableEq (Except ε α) := fun x y =>
  match x, y with
  | Except.ok a, Except.ok b =>
    if h : a = b then isTrue (h ▸ rfl) else isFalse (fun hc => h (Except.ok.inj hc))
  | Except.error a, Except.error b =>
    if h : a = b then isTrue (h ▸ rfl) else isFalse (fun hc => h (Except.error.inj hc))
  | Except.ok _, Except.error _ => isFalse (fun hc => Except.noConfusion hc)
  | Except.error _, Except.ok _ => isFalse (fun hc => Except.noConfusion hc)

/-- Pure oracle for the serial port: outcome of the one `Write` and the
one `Read` a single core operation performs. `readData` is the byte
stream the port would deposit into the caller's buffer, `readN` the
count `Read` reports. -/
structure Port where
  writeN : Nat
  writeErr : Option String
  readData : List Nat
  readN : Nat
  readErr : Option String
deriving DecidableEq

/-- Contents of a zero-initialised `sz`-byte buffer after `Read` copied
the port's bytes into it: the first `sz` incoming bytes (as `uint8`,
hence `% 256`), zero-padded to length `sz`. -/
def readBuf (port : Port) (sz : Nat) : List Nat :=
  let filled := (port.readData.map (fun b => b % 256)).take sz
  filled ++ List.replicate (sz - filled.length) 0

/-- Modelled from the spec: the repository's `crc16` package
(`github.com/dark705/pzem-004t-v3/crc16`) is not under `src/`; the spec
describes it as a Modbus-style CRC-16 over the buffer. One shift round
of the standard Modbus CRC-16 (polynomial 0xA001, reflected). -/
def crcStep (c : Nat) : Nat :=
  if c % 2 = 1 then (c >>> 1) ^^^ 0xA001 else c >>> 1

/-- Modelled from the spec: folding one input byte (a `uint8`, hence
`% 256`) into the running Modbus CRC-16: xor it in, then eight shift
rounds. -/
def crcByte (c b : Nat) : Nat :=
  crcStep (crcStep (crcStep (crcStep (crcStep (crcStep (crcStep (crcStep (c ^^^ (b % 256)))))))))

/-- Modelled from the spec: `crc16.CRC`, the Modbus-style CRC-16 of a
byte buffer, initial value 0xFFFF. -/
def CRC (buf : List Nat) : Nat :=
  buf.foldl crcByte 0xFFFF

/-- `checkCRC` (pzem.go:280-287): false for buffers of length ≤ 2,
otherwise compares `uint16(buf[l-2]) | uint16(buf[l-1])<<8` with the
CRC of all bytes but the last two. -/
def checkCRC (buf : List Nat) : Bool :=
  if buf.length ≤ 2 then false
  else (buf.getD (buf.length - 2) 0 ||| (buf.getD (buf.length - 1) 0 <<< 8)) ==
    CRC (buf.take (buf.length - 2))

/-- `setCRC` (pzem.go:289-298): for buffers of length ≤ 2 does nothing,
otherwise overwrites the last two bytes with the CRC of the preceding
bytes, low byte first (`uint8(crc)&0xFF`, `uint8(crc>>8)&0xFF`). -/
def setCRC (buf : List Nat) : List Nat :=
  if buf.length ≤ 2 then buf
  else buf.take (buf.length - 2) ++
    [CRC (buf.take (buf.length - 2)) % 256, (CRC (buf.take (buf.length - 2)) >>> 8) % 256]

/-- `isError` (pzem.go:240-257): a device error is reported exactly when
`buf[1] == 0x84`; `buf[2]` then selects which one. -/
def isError (buf : List Nat) : Option GoErr :=
  if buf.getD 1 0 == 0x84 then
    some (match buf.getD 2 0 with
      | 0x01 => GoErr.illegalCommand
      | 0x02 => GoErr.illegalAddress
      | 0x03 => GoErr.illegalData
      | 0x04 => GoErr.slaveError
      | _ => GoErr.unknownError)
  else none

/-- `recieve` (pzem.go:259-278) with a fresh `sz`-byte response buffer:
transport read error, then count check (`n != len(resp)`), then
`checkCRC`, then `isError`; success returns the filled buffer. -/
def recieve (port : Port) (sz : Nat) : Except GoErr (List Nat) :=
  match port.readErr with
  | some e => Except.error (GoErr.ioErr e)
  | none =>
    if port.readN ≠ sz then Except.error (GoErr.shortRead sz port.readN)
    else if checkCRC (readBuf port sz) then
      match isError (readBuf port sz) with
      | some e => Except.error e
      | none => Except.ok (readBuf port sz)
    else Except.error GoErr.badCRC

/-- Session state (`pzem` struct, pzem.go:78-89), without the port
handle; measurement fields as exact rationals, `lastRead` in ms. -/
structure Pzem where
  addr : Nat
  voltage : ℚ
  current : ℚ
  power : ℚ
  energy : ℚ
  frequeny : ℚ
  powerFactor : ℚ
  alarms : Nat
  lastRead : Nat
deriving DecidableEq

/-- The zero-valued `pzem` struct allocated by `Setup` (pzem.go:117). -/
def initialPzem : Pzem :=
  { addr := 0, voltage := 0, current := 0, power := 0, energy := 0,
    frequeny := 0, powerFactor := 0, alarms := 0, lastRead := 0 }

def PzemDefaultAddress : Nat := 0xF8
def PzemUpdateTime : Nat := 1000
def ModbusRTUAddress : Nat := 0x0002
def WriteSingleRegister : Nat := 0x06
def ReadInputRegister : Nat := 0x04
def ResetEnergyCmd : Nat := 0x42

/-- Error plus transport-operation counts returned by `sendCmd8`. -/
structure CmdResult where
  err : Option GoErr
  writes : Nat
  reads : Nat
deriving DecidableEq

/-- The 8-byte frame `sendCmd8` builds (pzem.go:138-150): address,
command, register hi/lo, value hi/lo, then `setCRC` fills the trailer.
`uint8(x)` truncation is `% 256`. -/
def sendFrame (addr cmd reg val : Nat) : List Nat :=
  setCRC [addr % 256, cmd % 256, (reg >>> 8) % 256, reg % 256,
          (val >>> 8) % 256, val % 256, 0, 0]

/-- `sendCmd8` (pzem.go:137-176): writes the frame (write error wins
over a short write), then — when `check` — reads an 8-byte response via
`recieve` and compares it byte-for-byte with the sent frame. The Go
guard `n <= 0 || err != nil` after `recieve` is reached only with
`n ≥ 8`, so only the `recieve` error matters there. -/
def sendCmd8 (p : Pzem) (port : Port) (cmd reg val : Nat) (check : Bool) : CmdResult :=
  match port.writeErr with
  | some e => { err := some (GoErr.ioErr e), writes := 1, reads := 0 }
  | none =>
    if port.writeN < 8 then
      { err := some (GoErr.sendShort 8 port.writeN), writes := 1, reads := 0 }
    else if check then
      match recieve port 8 with
      | Except.error e => { err := some e, writes := 1, reads := 1 }
      | Except.ok resp =>
        if sendFrame p.addr cmd reg val = resp then { err := none, writes := 1, reads := 1 }
        else { err := some GoErr.echoMismatch, writes := 1, reads := 1 }
    else { err := none, writes := 1, reads := 0 }

/-- Error, resulting state, and transport counts of a session
operation. -/
structure SetOut where
  err : Option GoErr
  st : Pzem
  writes : Nat
  reads : Nat
deriving DecidableEq

/-- `setSlaveArddress` (pzem.go:122-135): rejects addresses outside
[0x01, 0xF7] before touching the port; otherwise a write-with-verify of
the address register, updating `p.addr` only on success. -/
def setSlaveArddress (p : Pzem) (port : Port) (addr : Nat) : SetOut :=
  if addr < 0x01 ∨ 0xF7 < addr then
    { err := some GoErr.invalidAddress, st := p, writes := 0, reads := 0 }
  else
    match (sendCmd8 p port WriteSingleRegister ModbusRTUAddress addr true).err with
    | some e =>
      { err := some e, st := p,
        writes := (sendCmd8 p port WriteSingleRegister ModbusRTUAddress addr true).writes,
        reads := (sendCmd8 p port WriteSingleRegister ModbusRTUAddress addr true).reads }
    | none =>
      { err := none, st := { p with addr := addr },
        writes := (sendCmd8 p port WriteSingleRegister ModbusRTUAddress addr true).writes,
        reads := (sendCmd8 p port WriteSingleRegister ModbusRTUAddress addr true).reads }

/-- `initDevice` (pzem.go:178-188), translated including its dead store:
the out-of-range fallback to `PzemDefaultAddress` is immediately
overwritten by the unconditional `p.addr = addr`, and the error of the
subsequent `setSlaveArddress` call is discarded. -/
def initDevice (p : Pzem) (port : Port) (addr : Nat) : Pzem :=
  let p1 := if addr < 0x01 ∨ 0xF8 < addr then { p with addr := PzemDefaultAddress } else p
  let p2 := { p1 with addr := addr }
  if p2.addr ≠ PzemDefaultAddress then (setSlaveArddress p2 port p2.addr).st else p2

/-- `Config` (pzem.go:71-76); the `TimeOut` field only parametrises the
serial driver and is omitted. -/
structure Config where
  port : String
  speed : Nat
  slaveArddress : Nat
deriving DecidableEq

/-- `Setup` (pzem.go:99-120): empty port name is a config error; zero
speed and zero slave address are replaced by the defaults; a serial-open
failure (`openErr`) is returned as-is; otherwise the session is
initialised by `initDevice` and returned with a `nil` error
unconditionally. -/
def Setup (config : Config) (openErr : Option String) (port : Port) : Except GoErr Pzem :=
  if config.port = "" then Except.error GoErr.portMustBeSet
  else
    let speed := if config.speed = 0 then 9600 else config.speed
    let slaveAddr := if config.slaveArddress = 0 then PzemDefaultAddress else config.slaveArddress
    let _ := speed
    match openErr with
    | some e => Except.error (GoErr.ioErr e)
    | none => Except.ok (initDevice initialPzem port slaveAddr)

/-- Result of `updateValues`: error, resulting session state, transport
counts. -/
structure UVOut where
  err : Option GoErr
  st : Pzem
  writes : Nat
  reads : Nat
deriving DecidableEq

/-- The seven field assignments plus the timestamp write of
`updateValues` (pzem.go:208-235), applied to the validated 25-byte
response: the exact shifts, ors, divisors and the `uint16` truncation
of the alarm word of the source. -/
def decodeInto (p : Pzem) (response : List Nat) (t : Nat) : Pzem :=
  { p with
    voltage := ((response.getD 3 0 <<< 8 ||| response.getD 4 0 : Nat) : ℚ) / 10,
    current := ((response.getD 5 0 <<< 8 ||| response.getD 6 0 |||
                 response.getD 7 0 <<< 24 ||| response.getD 8 0 <<< 16 : Nat) : ℚ) / 1000,
    power := ((response.getD 9 0 <<< 8 ||| response.getD 10 0 |||
               response.getD 11 0 <<< 24 ||| response.getD 12 0 <<< 16 : Nat) : ℚ) / 10,
    energy := ((response.getD 13 0 <<< 8 ||| response.getD 14 0 |||
                response.getD 15 0 <<< 24 ||| response.getD 16 0 <<< 16 : Nat) : ℚ) / 1000,
    frequeny := ((response.getD 17 0 <<< 8 ||| response.getD 18 0 : Nat) : ℚ) / 10,
    powerFactor := ((response.getD 19 0 <<< 8 ||| response.getD 20 0 : Nat) : ℚ) / 100,
    alarms := (response.getD 21 0 <<< 8 ||| response.getD 22 0) % 65536,
    lastRead := t }

/-- `updateValues` (pzem.go:190-238). Staleness gate first
(`lastRead + 1000ms > now` — nothing touched, `nil` returned); then the
input-register read command (no echo check), the 25-byte receive, and
only on full success the decode of all seven cached fields together
with `lastRead = now2`. -/
def updateValues (p : Pzem) (port : Port) (now now2 : Nat) : UVOut :=
  if now < p.lastRead + PzemUpdateTime then
    { err := none, st := p, writes := 0, reads := 0 }
  else
    match (sendCmd8 p port ReadInputRegister 0x00 0x0A false).err with
    | some e =>
      { err := some e, st := p,
        writes := (sendCmd8 p port ReadInputRegister 0x00 0x0A false).writes,
        reads := (sendCmd8 p port ReadInputRegister 0x00 0x0A false).reads }
    | none =>
      match recieve port 25 with
      | Except.error e =>
        { err := some e, st := p,
          writes := (sendCmd8 p port ReadInputRegister 0x00 0x0A false).writes,
          reads := (sendCmd8 p port ReadInputRegister 0x00 0x0A false).reads + 1 }
      | Except.ok response =>
        { err := none, st := decodeInto p response now2,
          writes := (sendCmd8 p port ReadInputRegister 0x00 0x0A false).writes,
          reads := (sendCmd8 p port ReadInputRegister 0x00 0x0A false).reads + 1 }

/-- Value-returning accessor result (`Voltage` etc., pzem.go:319-359):
the accessor runs `updateValues` and returns 0.0 with its error, or the
cached field. -/
structure AccOut where
  val : ℚ
  err : Option GoErr
  st : Pzem
  writes : Nat
  reads : Nat
deriving DecidableEq

/-- `Voltage` (pzem.go:319-324). -/
def Voltage (p : Pzem) (port : Port) (now now2 : Nat) : AccOut :=
  let u := updateValues p port now now2
  match u.err with
  | some e => { val := 0, err := some e, st := u.st, writes := u.writes, reads := u.reads }
  | none => { val := u.st.voltage, err := none, st := u.st, writes := u.writes, reads := u.reads }

/-- Result of `ResetEnergy`: error plus transport counts. -/
structure ROut where
  err : Option GoErr
  writes : Nat
  reads : Nat
deriving DecidableEq

/-- `ResetEnergy` (pzem.go:300-317), translated including its slip: the
4-byte reset frame is built and written, but both results of
`p.port.Write(buffer)` are discarded, so only the subsequent 4-byte
`recieve` decides the returned error. -/
def ResetEnergyOp (p : Pzem) (port : Port) : ROut :=
  let _buffer := setCRC [p.addr % 256, ResetEnergyCmd, 0x00, 0x00]
  match recieve port 4 with
  | Except.error e => { err := some e, writes := 1, reads := 1 }
  | Except.ok _ => { err := none, writes := 1, reads := 1 }

/-- The spec's device-error code table (§4.2, §6): the byte following
the error marker selects illegal command / illegal address / illegal
data / slave error, anything else the unknown-error variant. -/
def devErrOf (c : Nat) : GoErr :=
  if c = 0x01 then GoErr.illegalCommand
  else if c = 0x02 then GoErr.illegalAddress
  else if c = 0x03 then GoErr.illegalData
  else if c = 0x04 then GoErr.slaveError
  else GoErr.unknownError

/-! ## Concrete fixtures -/

/-- A port that is never actually exercised by the scenario it serves. -/
def port0 : Port :=
  { writeN := 0, writeErr := none, readData := [], readN := 0, readErr := none }

/-- A port whose write succeeds in full but whose read fails with a
transport error. -/
def failPort : Port :=
  { writeN := 8, writeErr := none, readData := [], readN := 0, readErr := some "boom" }

/-- Header plus 20 data bytes of a healthy measurement response:
voltage bytes 0x00 0xE6 (23.0 V), current raw 100 (0.1 A), frequency
raw 500 (50.0 Hz), power factor raw 100 (1.00), no alarm. -/
def data25 : List Nat :=
  [0xF8, 0x04, 0x14, 0x00, 0xE6, 0x00, 0x64, 0x00, 0x00,
   0, 0, 0, 0, 0, 0, 0, 0, 0x01, 0xF4, 0x00, 0x64, 0x00, 0x00]

/-- A valid 25-byte measurement frame: `data25` plus its CRC trailer. -/
def resp25 : List Nat := setCRC (data25 ++ [0, 0])

/-- A healthy port: full write, valid 25-byte measurement response. -/
def goodPort : Port :=
  { writeN := 8, writeErr := none, readData := resp25, readN := 25, readErr := none }

/-- An 8-byte frame with a valid trailer whose function-code byte 0x86
has the error marker (high bit) set but is not the 0x84 the code tests
for. -/
def ce8 : List Nat := setCRC [0x01, 0x86, 0x02, 0x00, 0x00, 0x00, 0x00, 0x00]

/-- A port returning `ce8` as an 8-byte response. -/
def cePort : Port :=
  { writeN := 8, writeErr := none, readData := ce8, readN := 8, readErr := none }

/-- A 5-byte device-error frame: function code 0x84, error code 0x02
(illegal address), valid trailer. -/
def dev5 : List Nat := setCRC [0x01, 0x84, 0x02, 0x00, 0x00]

/-- A port returning `dev5` as a 5-byte response. -/
def devPort : Port :=
  { writeN := 8, writeErr := none, readData := dev5, readN := 5, readErr := none }

/-- A session already holding the reserved default address. -/
def pzemF8 : Pzem := { initialPzem with addr := PzemDefaultAddress }

/-- The valid 4-byte echo of the reset-energy frame for address 0xF8. -/
def reset4 : List Nat := setCRC [0xF8, 0x42, 0x00, 0x00]

/-- A port whose write FAILS but whose read still produces the valid
4-byte reset echo. -/
def wPort : Port :=
  { writeN := 0, writeErr := some "write failed", readData := reset4, readN := 4, readErr := none }

/-- The register-write frame `set_address(0x05)` sends from address
0xF8. -/
def echoFrame : List Nat := sendFrame 0xF8 WriteSingleRegister ModbusRTUAddress 0x05

/-- A port that echoes `echoFrame` back byte-for-byte. -/
def echoPort : Port :=
  { writeN := 8, writeErr := none, readData := echoFrame, readN := 8, readErr := none }

set_option maxRecDepth 100000

/-! ## Arithmetic helpers: disjoint bit-fields, CRC bounds -/

/-- Bitwise or of values split at bit `k` is componentwise. -/
theorem lor_split (u w v x k : Nat) (hv : v < 2^k) (hx : x < 2^k) :
    (u * 2^k + v) ||| (w * 2^k + x) = (u ||| w) * 2^k + (v ||| x) := by
  have hvx : v ||| x < 2^k := Nat.or_lt_two_pow hv hx
  apply Nat.eq_of_testBit_eq
  intro j
  rw [Nat.testBit_lor, Nat.mul_comm u, Nat.mul_comm w, Nat.mul_comm (u ||| w),
      Nat.testBit_mul_pow_two_add _ hv, Nat.testBit_mul_pow_two_add _ hx,
      Nat.testBit_mul_pow_two_add _ hvx]
  by_cases h : j < k
  · simp [h, Nat.testBit_lor]
  · simp [h, Nat.testBit_lor]

/-- Oring a shifted value with a value that fits below the shift is
addition. -/
theorem shift_lor_eq_add (a b k : Nat) (hb : b < 2^k) :
    a <<< k ||| b = a * 2^k + b := by
  rw [Nat.shiftLeft_eq, Nat.mul_comm a, ← Nat.mul_add_lt_is_or hb, Nat.mul_comm]

/-- The device's interleaved 32-bit register layout
`b5<<8 | b6 | b7<<24 | b8<<16`, rewritten as plain arithmetic. -/
theorem interleave_eq (b5 b6 b7 b8 : Nat)
    (h5 : b5 < 256) (h6 : b6 < 256) (_h7 : b7 < 256) (h8 : b8 < 256) :
    b5 <<< 8 ||| b6 ||| b7 <<< 24 ||| b8 <<< 16 =
      b7 * 2^24 + b8 * 2^16 + b5 * 256 + b6 := by
  have h1 : b5 <<< 8 ||| b6 = b5 * 2^8 + b6 := shift_lor_eq_add _ _ _ (by omega)
  have ht1 : b5 * 2^8 + b6 < 2^24 := by norm_num at *; omega
  have h2 : b5 * 2^8 + b6 ||| b7 <<< 24 = b7 * 2^24 + (b5 * 2^8 + b6) := by
    rw [Nat.lor_comm]
    exact shift_lor_eq_add _ _ _ ht1
  have h3 : b7 * 2^24 + (b5 * 2^8 + b6) ||| b8 <<< 16 =
      (b7 * 2^8 ||| b8) * 2^16 + (b5 * 2^8 + b6 ||| 0) := by
    have e24 : b7 * 2^24 = b7 * 2^8 * 2^16 := by ring
    have e16 : b8 <<< 16 = b8 * 2^16 + 0 := by rw [Nat.shiftLeft_eq, Nat.add_zero]
    rw [e24, e16]
    exact lor_split _ _ _ _ 16 (by norm_num at *; omega) (by norm_num)
  have h4 : b7 * 2^8 ||| b8 = b7 * 2^8 + b8 := by
    rw [Nat.mul_comm, ← Nat.mul_add_lt_is_or (by omega) b7, Nat.mul_comm]
  rw [h1, h2, h3, h4, Nat.or_zero]
  ring

/-- One CRC shift round keeps the value a 16-bit quantity. -/
theorem crcStep_lt (c : Nat) (h : c < 65536) : crcStep c < 65536 := by
  unfold crcStep
  have hs : c >>> 1 < 65536 := by
    rw [Nat.shiftRight_eq_div_pow]
    omega
  split
  · have : (65536 : Nat) = 2^16 := by norm_num
    rw [this] at hs ⊢
    exact Nat.xor_lt_two_pow hs (by norm_num)
  · exact hs

/-- Folding a byte into the CRC keeps it a 16-bit quantity. -/
theorem crcByte_lt (c b : Nat) (h : c < 65536) : crcByte c b < 65536 := by
  unfold crcByte
  have h0 : c ^^^ b % 256 < 65536 := by
    have : (65536 : Nat) = 2^16 := by norm_num
    rw [this] at h ⊢
    exact Nat.xor_lt_two_pow h (by have := Nat.mod_lt b (y := 256) (by norm_num); omega)
  exact crcStep_lt _ (crcStep_lt _ (crcStep_lt _ (crcStep_lt _ (crcStep_lt _
    (crcStep_lt _ (crcStep_lt _ (crcStep_lt _ h0)))))))

theorem foldl_crcByte_lt (l : List Nat) : ∀ c, c < 65536 → l.foldl crcByte c < 65536 := by
  induction l with
  | nil => intro c h; simpa using h
  | cons a t ih => intro c h; exact ih _ (crcByte_lt c a h)

/-- The modelled `crc16.CRC` is a 16-bit value. -/
theorem CRC_lt (buf : List Nat) : CRC buf < 65536 :=
  foldl_crcByte_lt buf 0xFFFF (by norm_num)

/-! ## Buffer helpers -/

theorem readBuf_length (port : Port) (sz : Nat) : (readBuf port sz).length = sz := by
  unfold readBuf
  simp only [List.length_append, List.length_replicate, List.length_take, List.length_map]
  omega

theorem mem_readBuf_lt (port : Port) (sz : Nat) {x : Nat} (hx : x ∈ readBuf port sz) :
    x < 256 := by
  unfold readBuf at hx
  rcases List.mem_append.1 hx with h | h
  · have hm := List.take_subset _ _ h
    rcases List.mem_map.1 hm with ⟨b, _, rfl⟩
    exact Nat.mod_lt _ (by norm_num)
  · rw [List.eq_of_mem_replicate h]
    norm_num

theorem readBuf_getD_lt (port : Port) (sz i : Nat) : (readBuf port sz).getD i 0 < 256 := by
  rw [List.getD_eq_getElem?_getD]
  cases h : (readBuf port sz)[i]? with
  | none => norm_num
  | some y => exact Option.getD_some ▸ mem_readBuf_lt port sz (List.getElem?_mem h)

theorem getD_lt_of_forall {l : List Nat} (hb : ∀ b ∈ l, b < 256) (i : Nat) :
    l.getD i 0 < 256 := by
  rw [List.getD_eq_getElem?_getD]
  cases h : l[i]? with
  | none => norm_num
  | some y => exact Option.getD_some ▸ hb y (List.getElem?_mem h)

/-! ## Structural lemmas about the operations -/

/-- `isError` only ever produces the five device-error values, never the
address-validation error. -/
theorem isError_ne_invalid (buf : List Nat) : isError buf ≠ some GoErr.invalidAddress := by
  unfold isError
  split
  · split <;> simp
  · simp

/-- A successful `recieve` returns exactly the filled response buffer. -/
theorem recieve_ok_eq (port : Port) (sz : Nat) (r : List Nat)
    (h : recieve port sz = Except.ok r) : r = readBuf port sz := by
  unfold recieve at h
  split at h
  · simp at h
  · split at h
    · simp at h
    · split at h
      · split at h
        · simp at h
        · simp at h; exact h.symm
      · simp at h

/-- `recieve` never fails with the address-validation error. -/
theorem recieve_ne_invalid (port : Port) (sz : Nat) :
    recieve port sz ≠ Except.error GoErr.invalidAddress := by
  unfold recieve
  split
  · simp
  · split
    · simp
    · split
      · split
        · rename_i e he
          intro hc
          exact isError_ne_invalid _ (Except.error.inj hc ▸ he)
        · simp
      · simp

/-- `sendCmd8` can fail with a transport, short-send, receive or echo
error, but never with the address-validation error. -/
theorem sendCmd8_ne_invalid (p : Pzem) (port : Port) (cmd reg val : Nat) (check : Bool) :
    (sendCmd8 p port cmd reg val check).err ≠ some GoErr.invalidAddress := by
  unfold sendCmd8
  cases hw : port.writeErr with
  | some e => simp
  | none =>
    by_cases hn : port.writeN < 8
    · simp [hn]
    · rw [if_neg hn]
      cases check with
      | false => simp
      | true =>
        rw [if_pos rfl]
        cases hr : recieve port 8 with
        | error e =>
          intro hc
          rw [Option.some.inj hc] at hr
          exact recieve_ne_invalid port 8 hr
        | ok resp => by_cases heq : sendFrame p.addr cmd reg val = resp <;> simp [heq]

/-- A `sendCmd8` with echo check that succeeds got back exactly the
frame it sent. -/
theorem sendCmd8_check_ok (p : Pzem) (port : Port) (cmd reg val : Nat)
    (h : (sendCmd8 p port cmd reg val true).err = none) :
    sendFrame p.addr cmd reg val = readBuf port 8 := by
  unfold sendCmd8 at h
  cases hw : port.writeErr with
  | some e => simp [hw] at h
  | none =>
    by_cases hn : port.writeN < 8
    · simp [hw, hn] at h
    · cases hr : recieve port 8 with
      | error e => simp [hw, hn, hr] at h
      | ok resp =>
        by_cases heq : sendFrame p.addr cmd reg val = resp
        · exact heq.trans (recieve_ok_eq port 8 resp hr)
        · simp [hw, hn, hr, heq] at h

/-- Without the echo check `sendCmd8` performs one write and no read,
whatever the outcome. -/
theorem sendCmd8_false_counts (p : Pzem) (port : Port) (cmd reg val : Nat) :
    (sendCmd8 p port cmd reg val false).writes = 1 ∧
    (sendCmd8 p port cmd reg val false).reads = 0 := by
  unfold sendCmd8
  split
  · exact ⟨rfl, rfl⟩
  · split
    · exact ⟨rfl, rfl⟩
    · exact ⟨rfl, rfl⟩

/-- Without the echo check, `sendCmd8` succeeds exactly when the
transport write succeeded in full. -/
theorem sendCmd8_false_ok (p : Pzem) (port : Port) (cmd reg val : Nat)
    (hw : port.writeErr = none) (hn : 8 ≤ port.writeN) :
    sendCmd8 p port cmd reg val false = { err := none, writes := 1, reads := 0 } := by
  unfold sendCmd8
  rw [hw]
  simp [Nat.not_lt.2 hn]

/-- A throttled refresh: success, untouched state, no transport
operation. -/
theorem uv_throttled (p : Pzem) (port : Port) (now now2 : Nat)
    (h : now < p.lastRead + PzemUpdateTime) :
    updateValues p port now now2 = { err := none, st := p, writes := 0, reads := 0 } := by
  unfold updateValues
  rw [if_pos h]

/-- A failing refresh leaves the session state exactly as it was. -/
theorem uv_fail_st (p : Pzem) (port : Port) (now now2 : Nat) (e : GoErr)
    (h : (updateValues p port now now2).err = some e) :
    (updateValues p port now now2).st = p := by
  by_cases ht : now < p.lastRead + PzemUpdateTime
  · rw [uv_throttled p port now now2 ht] at h
    simp at h
  · unfold updateValues at h ⊢
    rw [if_neg ht] at h ⊢
    cases hs : (sendCmd8 p port ReadInputRegister 0x00 0x0A false).err with
    | some e1 => rfl
    | none =>
      cases hr : recieve port 25 with
      | error e2 => rfl
      | ok resp => simp [hr, hs] at h

/-- A non-throttled refresh that succeeds decoded the filled 25-byte
response buffer, wrote the timestamp `now2`, and performed exactly one
write and one read. -/
theorem uv_ok (p : Pzem) (port : Port) (now now2 : Nat)
    (ht : p.lastRead + PzemUpdateTime ≤ now)
    (h : (updateValues p port now now2).err = none) :
    updateValues p port now now2 =
      { err := none, st := decodeInto p (readBuf port 25) now2, writes := 1, reads := 1 } := by
  have ht' : ¬ now < p.lastRead + PzemUpdateTime := by omega
  unfold updateValues at h ⊢
  rw [if_neg ht'] at h ⊢
  cases hs : (sendCmd8 p port ReadInputRegister 0x00 0x0A false).err with
  | some e1 => simp [hs] at h
  | none =>
    cases hr : recieve port 25 with
    | error e2 => simp [hr, hs] at h
    | ok resp =>
      have hresp : resp = readBuf port 25 := recieve_ok_eq port 25 resp hr
      have hc := sendCmd8_false_counts p port ReadInputRegister 0x00 0x0A
      simp [hr, hs, hresp, hc.1, hc.2]

/-- A non-throttled refresh whose transport write went through performs
exactly one write and one read, whatever happens afterwards. -/
theorem uv_reads_one (p : Pzem) (port : Port) (now now2 : Nat)
    (ht : p.lastRead + PzemUpdateTime ≤ now)
    (hw : port.writeErr = none) (hn : 8 ≤ port.writeN) :
    (updateValues p port now now2).writes = 1 ∧ (updateValues p port now now2).reads = 1 := by
  have ht' : ¬ now < p.lastRead + PzemUpdateTime := by omega
  unfold updateValues
  rw [if_neg ht', sendCmd8_false_ok p port ReadInputRegister 0x00 0x0A hw hn]
  cases hr : recieve port 25 with
  | error e => simp [hr]
  | ok resp => simp [hr]

/-- The `Voltage` accessor returns the error, state and transport counts
of the `updateValues` call it performs. -/
theorem Voltage_parts (p : Pzem) (port : Port) (now now2 : Nat) :
    (Voltage p port now now2).err = (updateValues p port now now2).err ∧
    (Voltage p port now now2).st = (updateValues p port now now2).st ∧
    (Voltage p port now now2).writes = (updateValues p port now now2).writes ∧
    (Voltage p port now now2).reads = (updateValues p port now now2).reads := by
  unfold Voltage
  cases h : (updateValues p port now now2).err <;> simp [h]

/-! ## Claims -/

/-- C1: the claim says a requested address outside [0x01, 0xF8] must
resolve to the reserved default 0xF8. Evaluating `Setup` at requested
address 0xFA shows the session is created with effective address 0xFA:
the fallback assignment in `initDevice` is a dead store (immediately
overwritten by `p.addr = addr`) and the failure of the subsequent
`setSlaveArddress(0xFA)` is discarded, so the out-of-range address
stays in effect. -/
theorem C1_out_of_range_address_kept :
    (Setup { port := "/dev/ttyUSB0", speed := 0, slaveArddress := 0xFA } none port0).map
        Pzem.addr = Except.ok 0xFA ∧ (0xFA : Nat) ≠ PzemDefaultAddress := by
  constructor
  · decide
  · decide

/-- C2: the claim says a failing `set_address` during `Setup` surfaces
as the `open` error with no session returned. Evaluating `Setup` at
requested address 0x05 over a transport whose read fails: the inner
`setSlaveArddress` call fails with the transport error, yet `Setup`
still returns the session with a `nil` error, because `initDevice`
discards the error and `Setup` unconditionally returns `(p, nil)`. -/
theorem C2_setup_swallows_set_address_failure :
    (setSlaveArddress { initialPzem with addr := 0x05 } failPort 0x05).err =
      some (GoErr.ioErr "boom") ∧
    (Setup { port := "/dev/ttyUSB0", speed := 9600, slaveArddress := 0x05 } none failPort).map
        Pzem.addr = Except.ok 0x05 := by
  constructor
  · decide
  · decide

/-- C6: the claim says every transport-write failure is returned, and in
particular `ResetEnergy` returns an error whenever its write of the
4-byte reset frame fails. Evaluating `ResetEnergy` on a port whose
write fails while the read still yields the valid 4-byte echo: the
source discards both results of `p.port.Write(buffer)`, so the call
returns `nil` although the write failed. -/
theorem C6_reset_energy_swallows_write_failure :
    wPort.writeErr = some "write failed" ∧ (ResetEnergyOp pzemF8 wPort).err = none := by
  constructor
  · decide
  · decide

/-- C3: for every session state and every failing refresh — transport
error, short read, bad checksum or device error alike — every cached
snapshot field (voltage, current, power, energy, frequency, power
factor, alarm) and the last-read timestamp is exactly the same after
the failed `updateValues` call as before it (the error itself being the
hypothesis), so no partially updated snapshot is observable. -/
theorem C3_failed_refresh_preserves_snapshot (p : Pzem) (port : Port) (now now2 : Nat)
    (e : GoErr) (h : (updateValues p port now now2).err = some e) :
    (updateValues p port now now2).st.voltage = p.voltage ∧
    (updateValues p port now now2).st.current = p.current ∧
    (updateValues p port now now2).st.power = p.power ∧
    (updateValues p port now now2).st.energy = p.energy ∧
    (updateValues p port now now2).st.frequeny = p.frequeny ∧
    (updateValues p port now now2).st.powerFactor = p.powerFactor ∧
    (updateValues p port now now2).st.alarms = p.alarms ∧
    (updateValues p port now now2).st.lastRead = p.lastRead := by
  rw [uv_fail_st p port now now2 e h]
  exact ⟨rfl, rfl, rfl, rfl, rfl, rfl, rfl, rfl⟩

/-- Witness for C3 at a concrete failing refresh: the transport read
fails, the error is surfaced, and the timestamp is untouched. -/
theorem C3_witness :
    (updateValues initialPzem failPort 5000 5200).err = some (GoErr.ioErr "boom") ∧
    (updateValues initialPzem failPort 5000 5200).st.lastRead = initialPzem.lastRead := by
  refine ⟨by decide, ?_⟩
  exact (C3_failed_refresh_preserves_snapshot initialPzem failPort 5000 5200
    (GoErr.ioErr "boom") (by decide)).2.2.2.2.2.2.2

/-- C4: when now − lastRead < 1000 ms the refresh returns success
immediately with no transport write or read and serves the cached
state; consequently, a successful non-throttled accessor call issues
exactly one transport read, a second accessor call within 1000 ms of
the new timestamp issues none (one read for the pair), and a second
call at least 1000 ms after the timestamp whose write goes through
issues a read of its own. -/
theorem C4_staleness_gate (p : Pzem) (port port2 : Port) (now now2 t2 t2' : Nat) :
    (now < p.lastRead + PzemUpdateTime →
      updateValues p port now now2 = { err := none, st := p, writes := 0, reads := 0 }) ∧
    (p.lastRead + PzemUpdateTime ≤ now → (Voltage p port now now2).err = none →
      (Voltage p port now now2).writes = 1 ∧
      (Voltage p port now now2).reads = 1 ∧
      (t2 < (Voltage p port now now2).st.lastRead + PzemUpdateTime →
        (Voltage (Voltage p port now now2).st port2 t2 t2').err = none ∧
        (Voltage (Voltage p port now now2).st port2 t2 t2').writes = 0 ∧
        (Voltage (Voltage p port now now2).st port2 t2 t2').reads = 0) ∧
      ((Voltage p port now now2).st.lastRead + PzemUpdateTime ≤ t2 →
        port2.writeErr = none → 8 ≤ port2.writeN →
        (Voltage (Voltage p port now now2).st port2 t2 t2').reads = 1)) := by
  obtain ⟨hv1, hv2, hv3, hv4⟩ := Voltage_parts p port now now2
  constructor
  · intro h
    exact uv_throttled p port now now2 h
  · intro ht herr
    have huv : (updateValues p port now now2).err = none := hv1 ▸ herr
    have hok := uv_ok p port now now2 ht huv
    obtain ⟨hw1, hw2, hw3, hw4⟩ :=
      Voltage_parts (Voltage p port now now2).st port2 t2 t2'
    refine ⟨by rw [hv3, hok], by rw [hv4, hok], ?_, ?_⟩
    · intro h2
      have := uv_throttled (Voltage p port now now2).st port2 t2 t2' h2
      exact ⟨by rw [hw1, this], by rw [hw3, this], by rw [hw4, this]⟩
    · intro h2 hpw hpn
      have := uv_reads_one (Voltage p port now now2).st port2 t2 t2' h2 hpw hpn
      rw [hw4]
      exact this.2

/-- Witness for C4: a successful first accessor call at t = 5000 (one
write, one read, timestamp 5200), a second call at t = 5900 (< 1000 ms
later: no transport operation, still successful), and a second call at
t = 6200 (≥ 1000 ms later: one more read). -/
theorem C4_witness :
    (Voltage initialPzem goodPort 5000 5200).err = none ∧
    (Voltage initialPzem goodPort 5000 5200).reads = 1 ∧
    ((Voltage (Voltage initialPzem goodPort 5000 5200).st goodPort 5900 5950).err = none ∧
      (Voltage (Voltage initialPzem goodPort 5000 5200).st goodPort 5900 5950).reads = 0) ∧
    (Voltage (Voltage initialPzem goodPort 5000 5200).st goodPort 6200 6300).reads = 1 := by
  have h1 := C4_staleness_gate initialPzem goodPort goodPort 5000 5200 5900 5950
  have h2 := C4_staleness_gate initialPzem goodPort goodPort 5000 5200 6200 6300
  have herr : (Voltage initialPzem goodPort 5000 5200).err = none := by decide
  have hts : (Voltage initialPzem goodPort 5000 5200).st.lastRead = 5200 := by decide
  refine ⟨herr, (h1.2 (by decide) herr).2.1, ?_, ?_⟩
  · have hthr := (h1.2 (by decide) herr).2.2.1 (by rw [hts]; decide)
    exact ⟨hthr.1, hthr.2.2⟩
  · exact (h2.2 (by decide) herr).2.2.2 (by rw [hts]; decide) (by decide) (by decide)

/-- The source's `switch` over the error-code byte agrees with the
spec's error table. -/
theorem devMatch_eq (v : Nat) :
    (match v with
      | 0x01 => GoErr.illegalCommand
      | 0x02 => GoErr.illegalAddress
      | 0x03 => GoErr.illegalData
      | 0x04 => GoErr.slaveError
      | _ => GoErr.unknownError) = devErrOf v := by
  match v with
  | 0 => rfl
  | 1 => rfl
  | 2 => rfl
  | 3 => rfl
  | 4 => rfl
  | n+5 =>
    show GoErr.unknownError = devErrOf (n+5)
    unfold devErrOf
    rw [if_neg (by omega), if_neg (by omega), if_neg (by omega), if_neg (by omega)]

/-- C5 (amended): for a received frame of the expected length with a
valid checksum, validation fails with a device error exactly when the
function-code byte equals 0x84 (not merely when its high bit is set);
in that case the next byte selects the error per the table `devErrOf`
(0x01 illegal command, 0x02 illegal address, 0x03 illegal data, 0x04
slave error, otherwise unknown). -/
theorem C5_device_error_mapping (port : Port) (sz : Nat)
    (he : port.readErr = none) (hn : port.readN = sz)
    (hc : checkCRC (readBuf port sz) = true) :
    ((readBuf port sz).getD 1 0 = 0x84 →
      recieve port sz = Except.error (devErrOf ((readBuf port sz).getD 2 0))) ∧
    ((readBuf port sz).getD 1 0 ≠ 0x84 →
      recieve port sz = Except.ok (readBuf port sz)) := by
  constructor
  · intro h84
    rw [List.getD_eq_getElem?_getD] at h84
    unfold recieve
    rw [he]
    simp [hn, hc, isError, h84, devMatch_eq]
  · intro h84
    rw [List.getD_eq_getElem?_getD] at h84
    unfold recieve
    rw [he]
    simp [hn, hc, isError, h84]

/-- Counterexample to C5 as stated: an 8-byte response with valid
checksum whose function-code byte 0x86 has the error marker (high bit)
set, yet response validation succeeds, because the source only tests
for the literal byte 0x84. -/
theorem C5_counterexample :
    cePort.readErr = none ∧ cePort.readN = 8 ∧
    checkCRC (readBuf cePort 8) = true ∧
    Nat.testBit ((readBuf cePort 8).getD 1 0) 7 = true ∧
    recieve cePort 8 = Except.ok (readBuf cePort 8) := by
  refine ⟨rfl, rfl, by decide, by decide, by decide⟩

/-- Witness for the amended C5: a valid frame with function code 0x84
and error code 0x02 is rejected as the illegal-address device error. -/
theorem C5_witness :
    devPort.readErr = none ∧ devPort.readN = 5 ∧
    checkCRC (readBuf devPort 5) = true ∧
    (readBuf devPort 5).getD 1 0 = 0x84 ∧
    recieve devPort 5 = Except.error GoErr.illegalAddress := by
  refine ⟨rfl, rfl, by decide, by decide, ?_⟩
  have h := (C5_device_error_mapping devPort 5 rfl rfl (by decide)).1 (by decide)
  rw [h]
  decide

/-- C7: `setSlaveArddress` fails with the invalid-address error, sending
nothing, exactly when the new address lies outside [0x01, 0xF7]; on
success the echoed 8-byte response equals the sent frame byte-for-byte
and the stored address becomes the new one; on any failure the stored
state (in particular the address) is left as it was and the error is
returned. -/
theorem C7_set_address (p : Pzem) (port : Port) (a : Nat) :
    ((a < 0x01 ∨ 0xF7 < a) →
      setSlaveArddress p port a =
        { err := some GoErr.invalidAddress, st := p, writes := 0, reads := 0 }) ∧
    (0x01 ≤ a → a ≤ 0xF7 →
      (setSlaveArddress p port a).err ≠ some GoErr.invalidAddress) ∧
    ((setSlaveArddress p port a).err = none →
      (setSlaveArddress p port a).st = { p with addr := a } ∧
      sendFrame p.addr WriteSingleRegister ModbusRTUAddress a = readBuf port 8) ∧
    (∀ e, (setSlaveArddress p port a).err = some e →
      (setSlaveArddress p port a).st = p) := by
  by_cases hr : a < 0x01 ∨ 0xF7 < a
  · have heq : setSlaveArddress p port a =
        { err := some GoErr.invalidAddress, st := p, writes := 0, reads := 0 } := by
      unfold setSlaveArddress
      rw [if_pos hr]
    refine ⟨fun _ => heq, fun h1 h2 => absurd hr (by omega), ?_, ?_⟩
    · rw [heq]
      intro h
      simp at h
    · intro e _
      rw [heq]
  · unfold setSlaveArddress
    rw [if_neg hr]
    cases hs : (sendCmd8 p port WriteSingleRegister ModbusRTUAddress a true).err with
    | some e1 =>
      refine ⟨fun h => absurd h hr, ?_, ?_, ?_⟩
      · intro _ _ hc
        simp only at hc
        rw [hc] at hs
        exact sendCmd8_ne_invalid p port WriteSingleRegister ModbusRTUAddress a true hs
      · intro hcon
        simp at hcon
      · intro e _
        rfl
    | none =>
      refine ⟨fun h => absurd h hr, fun _ _ => by simp, ?_, ?_⟩
      · intro _
        exact ⟨rfl, sendCmd8_check_ok p port WriteSingleRegister ModbusRTUAddress a hs⟩
      · intro e hcon
        simp at hcon

/-- Witness for C7: from address 0xF8, `set_address(0x05)` over a port
that echoes the frame succeeds and stores 0x05, while `set_address
(0xF8)` is rejected as invalid with nothing sent. -/
theorem C7_witness :
    (setSlaveArddress pzemF8 echoPort 0x05).err = none ∧
    (setSlaveArddress pzemF8 echoPort 0x05).st = { pzemF8 with addr := 0x05 } ∧
    setSlaveArddress pzemF8 echoPort 0xF8 =
      { err := some GoErr.invalidAddress, st := pzemF8, writes := 0, reads := 0 } := by
  have herr : (setSlaveArddress pzemF8 echoPort 0x05).err = none := by decide
  refine ⟨herr, ?_, ?_⟩
  · exact ((C7_set_address pzemF8 echoPort 0x05).2.2.1 herr).1
  · exact (C7_set_address pzemF8 echoPort 0xF8).1 (by decide)

/-- C8: a successful refresh decodes the validated 25-byte payload with
voltage = (b3·256+b4)/10, the interleaved 32-bit raws
b[n]<<8 | b[n+1] | b[n+2]<<24 | b[n+3]<<16 — i.e.
b[n+2]·2^24 + b[n+3]·2^16 + b[n]·256 + b[n+1] — at offsets 5, 9 and 13
scaled by 1000, 10 and 1000, frequency = (b17·256+b18)/10, power
factor = (b19·256+b20)/100, and the alarm word b21·256+b22 unscaled. -/
theorem C8_decoder (p : Pzem) (port : Port) (now now2 : Nat)
    (ht : p.lastRead + PzemUpdateTime ≤ now)
    (h : (updateValues p port now now2).err = none) :
    (updateValues p port now now2).st.voltage =
      (((readBuf port 25).getD 3 0 * 256 + (readBuf port 25).getD 4 0 : Nat) : ℚ) / 10 ∧
    (updateValues p port now now2).st.current =
      (((readBuf port 25).getD 7 0 * 2^24 + (readBuf port 25).getD 8 0 * 2^16 +
        (readBuf port 25).getD 5 0 * 256 + (readBuf port 25).getD 6 0 : Nat) : ℚ) / 1000 ∧
    (updateValues p port now now2).st.power =
      (((readBuf port 25).getD 11 0 * 2^24 + (readBuf port 25).getD 12 0 * 2^16 +
        (readBuf port 25).getD 9 0 * 256 + (readBuf port 25).getD 10 0 : Nat) : ℚ) / 10 ∧
    (updateValues p port now now2).st.energy =
      (((readBuf port 25).getD 15 0 * 2^24 + (readBuf port 25).getD 16 0 * 2^16 +
        (readBuf port 25).getD 13 0 * 256 + (readBuf port 25).getD 14 0 : Nat) : ℚ) / 1000 ∧
    (updateValues p port now now2).st.frequeny =
      (((readBuf port 25).getD 17 0 * 256 + (readBuf port 25).getD 18 0 : Nat) : ℚ) / 10 ∧
    (updateValues p port now now2).st.powerFactor =
      (((readBuf port 25).getD 19 0 * 256 + (readBuf port 25).getD 20 0 : Nat) : ℚ) / 100 ∧
    (updateValues p port now now2).st.alarms =
      (readBuf port 25).getD 21 0 * 256 + (readBuf port 25).getD 22 0 ∧
    (updateValues p port now now2).st.lastRead = now2 := by
  rw [uv_ok p port now now2 ht h]
  have hb : ∀ i, (readBuf port 25).getD i 0 < 256 := fun i => readBuf_getD_lt port 25 i
  have hb2 : ∀ i, (readBuf port 25).getD i 0 < 2^8 := fun i => by simpa using hb i
  refine ⟨?_, ?_, ?_, ?_, ?_, ?_, ?_, rfl⟩
  · simp only [decodeInto]
    rw [shift_lor_eq_add _ _ 8 (hb2 4)]
    norm_num
  · simp only [decodeInto]
    rw [interleave_eq _ _ _ _ (hb 5) (hb 6) (hb 7) (hb 8)]
  · simp only [decodeInto]
    rw [interleave_eq _ _ _ _ (hb 9) (hb 10) (hb 11) (hb 12)]
  · simp only [decodeInto]
    rw [interleave_eq _ _ _ _ (hb 13) (hb 14) (hb 15) (hb 16)]
  · simp only [decodeInto]
    rw [shift_lor_eq_add _ _ 8 (hb2 18)]
    norm_num
  · simp only [decodeInto]
    rw [shift_lor_eq_add _ _ 8 (hb2 20)]
    norm_num
  · simp only [decodeInto]
    rw [shift_lor_eq_add _ _ 8 (hb2 22)]
    have h21 := hb 21
    have h22 := hb 22
    rw [Nat.mod_eq_of_lt (by
      simp only [List.getD_eq_getElem?_getD] at h21 h22
      norm_num
      omega)]
    norm_num

/-- Witness for C8: the healthy fixture carries voltage bytes 0x00 0xE6
(raw 230) and a successful refresh caches voltage 23.0. -/
theorem C8_witness :
    (readBuf goodPort 25).getD 3 0 = 0x00 ∧ (readBuf goodPort 25).getD 4 0 = 0xE6 ∧
    (updateValues initialPzem goodPort 5000 5200).err = none ∧
    (updateValues initialPzem goodPort 5000 5200).st.voltage = 23 := by
  refine ⟨by decide, by decide, by decide, ?_⟩
  have h := (C8_decoder initialPzem goodPort 5000 5200 (by decide) (by decide)).1
  rw [h,
    (by decide : (readBuf goodPort 25).getD 3 0 * 256 + (readBuf goodPort 25).getD 4 0 = 230)]
  norm_num

/-- C9: `checkCRC` rejects every buffer of length at most 2; for longer
buffers it accepts exactly when the checksum of all bytes but the last
two equals the trailing two bytes read little-endian (low byte first,
high byte second). -/
theorem C9_checkCRC_littleEndian (buf : List Nat) (hb : ∀ b ∈ buf, b < 256) :
    (buf.length ≤ 2 → checkCRC buf = false) ∧
    (2 < buf.length →
      (checkCRC buf = true ↔
        buf.getD (buf.length - 2) 0 + 256 * buf.getD (buf.length - 1) 0 =
          CRC (buf.take (buf.length - 2)))) := by
  constructor
  · intro h
    unfold checkCRC
    rw [if_pos h]
  · intro h
    unfold checkCRC
    rw [if_neg (by omega)]
    have hlo : buf.getD (buf.length - 2) 0 < 2^8 := by
      simpa using getD_lt_of_forall hb (buf.length - 2)
    rw [beq_iff_eq, Nat.lor_comm, shift_lor_eq_add _ _ 8 hlo]
    have h256 : (2:Nat)^8 = 256 := by norm_num
    rw [h256]
    constructor
    · intro he
      omega
    · intro he
      omega

/-- Witness for C9: a concrete 4-byte buffer whose trailer was chosen
little-endian is accepted, via the equivalence. -/
theorem C9_witness :
    (∀ b ∈ ([0x01, 0x02, 0x81, 0xE1] : List Nat), b < 256) ∧
    checkCRC [0x01, 0x02, 0x81, 0xE1] = true := by
  refine ⟨by decide, ?_⟩
  exact ((C9_checkCRC_littleEndian [0x01, 0x02, 0x81, 0xE1] (by decide)).2
    (by decide)).mpr (by decide)

/-- C10: appending the checksum with `setCRC` and then verifying with
`checkCRC` succeeds for every buffer of length greater than 2, whatever
its contents. -/
theorem C10_setCRC_checkCRC_roundtrip (buf : List Nat) (h : 2 < buf.length) :
    checkCRC (setCRC buf) = true := by
  unfold setCRC
  rw [if_neg (by omega)]
  have hA : (buf.take (buf.length - 2)).length = buf.length - 2 := by
    rw [List.length_take]
    omega
  have hg1 : ∀ x y : Nat,
      (buf.take (buf.length - 2) ++ [x, y]).getD (buf.length - 2) 0 = x := by
    intro x y
    rw [List.getD_eq_getElem?_getD, List.getElem?_append_right (le_of_eq hA), hA,
      Nat.sub_self]
    rfl
  have hg2 : ∀ x y : Nat,
      (buf.take (buf.length - 2) ++ [x, y]).getD (buf.length - 1) 0 = y := by
    intro x y
    rw [List.getD_eq_getElem?_getD, List.getElem?_append_right (by rw [hA]; omega), hA]
    have hi : buf.length - 1 - (buf.length - 2) = 1 := by omega
    rw [hi]
    rfl
  have hlen : ∀ x y : Nat,
      (buf.take (buf.length - 2) ++ [x, y]).length = buf.length := by
    intro x y
    rw [List.length_append, hA]
    simp
    omega
  unfold checkCRC
  rw [hlen, if_neg (by omega), hg1, hg2, List.take_left' hA]
  have hclt : CRC (buf.take (buf.length - 2)) < 65536 := CRC_lt _
  rw [beq_iff_eq, Nat.shiftRight_eq_div_pow]
  have hdiv : CRC (buf.take (buf.length - 2)) / 2^8 % 256 =
      CRC (buf.take (buf.length - 2)) / 2^8 := by
    apply Nat.mod_eq_of_lt
    norm_num
    omega
  rw [hdiv, Nat.lor_comm,
    shift_lor_eq_add _ _ 8 (by norm_num; exact Nat.mod_lt _ (by norm_num))]
  norm_num
  omega

/-- Witness for C10 on a concrete all-zero 4-byte buffer. -/
theorem C10_witness :
    2 < ([0, 0, 0, 0] : List Nat).length ∧ checkCRC (setCRC [0, 0, 0, 0]) = true := by
  exact ⟨by decide, C10_setCRC_checkCRC_roundtrip [0, 0, 0, 0] (by decide)⟩
